import Mathlib

/-!
A shallow embedding of the budget-gate rate limiter in `src/rate_limiter.py`.

Money amounts and points in time are modelled as rationals (`ℚ`); a point in
time is a number of seconds, so the one-hour rolling window is 3600 seconds.
The Python methods mutate a session-state dictionary in place; here every
operation takes the current time and the ledger state explicitly and returns
its result together with the successor state.  Python's `f"{x:.2f}"` float
formatting is modelled by `fmt2`, which rounds a rational to two decimal
places and prints it.
-/

namespace RateLimiter

/-- Two-decimal formatting of a rational, modelling Python's `f"{x:.2f}"`. -/
def fmt2 (q : ℚ) : String :=
  let n : ℤ := round (q * 100)
  let sign := if n < 0 then "-" else ""
  let m : ℕ := n.natAbs
  sign ++ toString (m / 100) ++ "." ++ (if m % 100 < 10 then "0" else "") ++ toString (m % 100)

/-- The price table `OPENAI_PRICING`: model name to
(price per input token, price per output token). -/
def OPENAI_PRICING : List (String × (ℚ × ℚ)) :=
  [("gpt-4", (3/100/1000, 6/100/1000)),
   ("gpt-4-turbo", (1/100/1000, 3/100/1000)),
   ("gpt-3.5-turbo", (5/10000/1000, 15/10000/1000))]

/-- `DEFAULT_MODEL` constant. -/
def DEFAULT_MODEL : String := "gpt-4-turbo"

/-- `HOURLY_LIMIT` constant: the $10.00 ceiling. -/
def HOURLY_LIMIT : ℚ := 10

/-- The rolling window duration, one hour, in seconds. -/
def ONE_HOUR : ℚ := 3600

/-- The session-state dictionary held by the limiter: the list of
`(timestamp, cost)` pairs, the daily total, and the last-reset timestamp. -/
structure LedgerData where
  hourly_usage : List (ℚ × ℚ)
  total_spent_today : ℚ
  last_reset : ℚ

/-- `_initialize_session_state`: empty ledger at time `t`. -/
def initialData (t : ℚ) : LedgerData :=
  { hourly_usage := [], total_spent_today := 0, last_reset := t }

/-- `_clean_old_usage`: drop every record whose timestamp is not strictly
later than one hour before `now` (the source filter keeps
`datetime.fromisoformat(timestamp) > cutoff_time`). -/
def clean_old_usage (now : ℚ) (d : LedgerData) : LedgerData :=
  { d with hourly_usage := d.hourly_usage.filter (fun r => now - ONE_HOUR < r.1) }

/-- `get_current_hourly_usage`: clean, then sum the remaining costs.
Returns the sum together with the (cleaned) successor state. -/
def get_current_hourly_usage (now : ℚ) (d : LedgerData) : ℚ × LedgerData :=
  (((clean_old_usage now d).hourly_usage.map Prod.snd).sum, clean_old_usage now d)

/-- The model actually priced: the requested one if present in the table,
otherwise `DEFAULT_MODEL` (the `if model not in OPENAI_PRICING` fallback). -/
def effective_model (model : String) : String :=
  if (OPENAI_PRICING.lookup model).isSome then model else DEFAULT_MODEL

/-- `estimate_request_cost`: tokens times unit prices for the effective model. -/
def estimate_request_cost (model : String) (estimated_input_tokens estimated_output_tokens : ℤ) : ℚ :=
  match OPENAI_PRICING.lookup (effective_model model) with
  | some p => (estimated_input_tokens : ℚ) * p.1 + (estimated_output_tokens : ℚ) * p.2
  | none => 0

/-- `can_make_request`: returns `((allowed, estimated_cost, reason), state)`. -/
def can_make_request (now : ℚ) (d : LedgerData) (model : String)
    (estimated_input_tokens estimated_output_tokens : ℤ) :
    (Bool × ℚ × String) × LedgerData :=
  if HOURLY_LIMIT < (get_current_hourly_usage now d).1 +
      estimate_request_cost model estimated_input_tokens estimated_output_tokens then
    ((false, estimate_request_cost model estimated_input_tokens estimated_output_tokens,
      "Would exceed hourly limit of $" ++ fmt2 HOURLY_LIMIT ++ ". Current usage: $" ++
        fmt2 (get_current_hourly_usage now d).1 ++ ", Estimated cost: $" ++
        fmt2 (estimate_request_cost model estimated_input_tokens estimated_output_tokens) ++
        ", Remaining budget: $" ++ fmt2 (HOURLY_LIMIT - (get_current_hourly_usage now d).1)),
     (get_current_hourly_usage now d).2)
  else
    ((true, estimate_request_cost model estimated_input_tokens estimated_output_tokens,
      "Request within limits"),
     (get_current_hourly_usage now d).2)

/-- `record_usage`: append `(now, actual_cost)`, add to the daily total,
then clean old data. -/
def record_usage (now : ℚ) (d : LedgerData) (actual_cost : ℚ) : LedgerData :=
  clean_old_usage now
    { d with hourly_usage := d.hourly_usage ++ [(now, actual_cost)],
             total_spent_today := d.total_spent_today + actual_cost }

/-- The dictionary returned by `get_usage_stats`. -/
structure UsageStats where
  hourly_usage : ℚ
  hourly_limit : ℚ
  remaining_budget : ℚ
  usage_percentage : ℚ
  requests_this_hour : ℕ
  daily_total : ℚ

/-- `get_usage_stats`: a snapshot computed after the lazy eviction performed
by `get_current_hourly_usage`. -/
def get_usage_stats (now : ℚ) (d : LedgerData) : UsageStats × LedgerData :=
  ({ hourly_usage := (get_current_hourly_usage now d).1,
     hourly_limit := HOURLY_LIMIT,
     remaining_budget := max 0 (HOURLY_LIMIT - (get_current_hourly_usage now d).1),
     usage_percentage := (get_current_hourly_usage now d).1 / HOURLY_LIMIT * 100,
     requests_this_hour := (get_current_hourly_usage now d).2.hourly_usage.length,
     daily_total := (get_current_hourly_usage now d).2.total_spent_today },
   (get_current_hourly_usage now d).2)

/-- `reset_daily_usage`: zero the daily counter and stamp `last_reset`. -/
def reset_daily_usage (now : ℚ) (d : LedgerData) : LedgerData :=
  { d with total_spent_today := 0, last_reset := now }

/-- A sequence of `record_usage` calls, each `(timestamp, cost)` in order. -/
def record_seq (d : LedgerData) : List (ℚ × ℚ) → LedgerData
  | [] => d
  | (t, c) :: rest => record_seq (record_usage t d c) rest

/-- Cleaning a ledger all of whose records are inside the window is a no-op. -/
lemma clean_eq_self (t : ℚ) (d : LedgerData)
    (h : ∀ r ∈ d.hourly_usage, t - ONE_HOUR < r.1) :
    clean_old_usage t d = d := by
  unfold clean_old_usage
  have hf : d.hourly_usage.filter (fun r => decide (t - ONE_HOUR < r.1)) = d.hourly_usage :=
    List.filter_eq_self.mpr (fun r hr => decide_eq_true (h r hr))
  rw [hf]

/-- Lazy eviction is idempotent at a fixed time. -/
lemma clean_old_usage_idem (t : ℚ) (d : LedgerData) :
    clean_old_usage t (clean_old_usage t d) = clean_old_usage t d := by
  apply clean_eq_self
  intro r hr
  unfold clean_old_usage at hr
  simp only [List.mem_filter] at hr
  exact of_decide_eq_true hr.2

/-- Reading usage from an already-cleaned ledger gives the same value and
leaves the state at the cleaned ledger. -/
lemma usage_after_clean (t : ℚ) (d : LedgerData) :
    get_current_hourly_usage t (clean_old_usage t d) =
      ((get_current_hourly_usage t d).1, clean_old_usage t d) := by
  unfold get_current_hourly_usage
  rw [clean_old_usage_idem]

/-- Recording a sequence of in-window costs just appends them to the list. -/
lemma record_seq_hourly (rs : List (ℚ × ℚ)) (now : ℚ) (d : LedgerData)
    (hd : ∀ r ∈ d.hourly_usage, now - ONE_HOUR < r.1)
    (hrs : ∀ r ∈ rs, now - ONE_HOUR < r.1 ∧ r.1 ≤ now) :
    (record_seq d rs).hourly_usage = d.hourly_usage ++ rs := by
  induction rs generalizing d with
  | nil => simp [record_seq]
  | cons head tail ih =>
    obtain ⟨t, c⟩ := head
    obtain ⟨h1, h2⟩ := hrs (t, c) (List.mem_cons_self _ _)
    have hstep : record_usage t d c =
        { d with hourly_usage := d.hourly_usage ++ [(t, c)],
                 total_spent_today := d.total_spent_today + c } := by
      unfold record_usage
      apply clean_eq_self
      intro r hr
      rcases List.mem_append.mp hr with h | h
      · exact lt_of_le_of_lt (by linarith) (hd r h)
      · have : r = (t, c) := List.mem_singleton.mp h
        subst this
        simp only
        have h0 : (0:ℚ) < ONE_HOUR := by norm_num [ONE_HOUR]
        linarith
    have := ih (record_usage t d c)
      (by
        intro r hr
        rw [hstep] at hr
        rcases List.mem_append.mp hr with h | h
        · exact hd r h
        · have : r = (t, c) := List.mem_singleton.mp h
          subst this; exact h1)
      (by intro r hr; exact hrs r (List.mem_cons_of_mem _ hr))
    calc (record_seq d ((t, c) :: tail)).hourly_usage
        = (record_seq (record_usage t d c) tail).hourly_usage := rfl
      _ = (record_usage t d c).hourly_usage ++ tail := this
      _ = d.hourly_usage ++ ((t, c) :: tail) := by rw [hstep]; simp

/-- C1: `can_make_request` rejects exactly when the current window usage plus
the estimated cost strictly exceeds the $10.00 ceiling; equivalently it
allows exactly when that sum is at most the ceiling, as an exact comparison
on rationals. -/
theorem can_make_request_gate (now : ℚ) (d : LedgerData) (model : String) (i o : ℤ) :
    ((can_make_request now d model i o).1.1 = false ↔
      HOURLY_LIMIT < (get_current_hourly_usage now d).1 + estimate_request_cost model i o) ∧
    ((can_make_request now d model i o).1.1 = true ↔
      (get_current_hourly_usage now d).1 + estimate_request_cost model i o ≤ HOURLY_LIMIT) := by
  unfold can_make_request
  split
  case isTrue h => simp [h, not_le.mpr h]
  case isFalse h => simp [h, not_lt.mp h]

/-- C8: the eviction boundary is exclusive: a record stamped exactly one hour
before `now` is removed by `_clean_old_usage` and contributes nothing to the
window usage, and every surviving record is stamped strictly later than
`now` minus one hour. -/
theorem eviction_boundary_exclusive (now c : ℚ) (d : LedgerData) :
    ((clean_old_usage now
        { d with hourly_usage := (now - ONE_HOUR, c) :: d.hourly_usage }).hourly_usage
      = (clean_old_usage now d).hourly_usage) ∧
    ((get_current_hourly_usage now
        { d with hourly_usage := (now - ONE_HOUR, c) :: d.hourly_usage }).1
      = (get_current_hourly_usage now d).1) ∧
    (∀ r ∈ (clean_old_usage now d).hourly_usage, now - ONE_HOUR < r.1) := by
  refine ⟨?_, ?_, ?_⟩
  · unfold clean_old_usage
    simp
  · unfold get_current_hourly_usage clean_old_usage
    simp
  · intro r hr
    unfold clean_old_usage at hr
    simp only [List.mem_filter] at hr
    exact of_decide_eq_true hr.2

/-- C2: the window usage returned by `get_current_hourly_usage` is exactly
the sum of the recorded costs whose timestamps lie within one hour of `now`
(strictly later than `now` minus one hour), and a record strictly older than
one hour before `now` contributes nothing. -/
theorem current_window_usage_spec (now ts c : ℚ) (d : LedgerData)
    (h : ts < now - ONE_HOUR) :
    ((get_current_hourly_usage now d).1 =
      ((d.hourly_usage.filter (fun r => now - ONE_HOUR < r.1)).map Prod.snd).sum) ∧
    ((get_current_hourly_usage now
        { d with hourly_usage := (ts, c) :: d.hourly_usage }).1 =
      (get_current_hourly_usage now d).1) := by
  constructor
  · rfl
  · unfold get_current_hourly_usage clean_old_usage
    have : ¬ (now - ONE_HOUR < ts) := not_lt.mpr (le_of_lt h)
    simp [this]

/-- Witness for C2 at a concrete input: a record one and a half hours old
does not change the usage sum. -/
theorem current_window_usage_spec_witness :
    ((0:ℚ) < 7200 - ONE_HOUR) ∧
    (get_current_hourly_usage 7200
        { initialData 0 with hourly_usage := ((0:ℚ), (5:ℚ)) :: (initialData 0).hourly_usage }).1 =
      (get_current_hourly_usage 7200 (initialData 0)).1 :=
  ⟨by norm_num [ONE_HOUR],
   (current_window_usage_spec 7200 0 5 (initialData 0) (by norm_num [ONE_HOUR])).2⟩

/-- C3: starting from a fresh ledger, recording costs `c1, …, cn` at
timestamps all inside the rolling window of `now` makes
`get_current_hourly_usage` return exactly `c1 + … + cn`. -/
theorem record_seq_usage_sum (now : ℚ) (rs : List (ℚ × ℚ))
    (h : ∀ r ∈ rs, now - ONE_HOUR < r.1 ∧ r.1 ≤ now) :
    (get_current_hourly_usage now (record_seq (initialData 0) rs)).1 =
      (rs.map Prod.snd).sum := by
  have hfull := record_seq_hourly rs now (initialData 0)
    (by intro r hr; simp [initialData] at hr) h
  unfold get_current_hourly_usage
  rw [clean_eq_self]
  · rw [hfull]
    simp [initialData]
  · intro r hr
    rw [hfull] at hr
    simp only [initialData, List.nil_append] at hr
    exact (h r hr).1

/-- Witness for C3: two records inside the window sum exactly. -/
theorem record_seq_usage_sum_witness :
    (get_current_hourly_usage 3600
        (record_seq (initialData 0) [((3600:ℚ), (1:ℚ)), ((1800:ℚ), (2:ℚ))])).1 =
      ([((3600:ℚ), (1:ℚ)), ((1800:ℚ), (2:ℚ))].map Prod.snd).sum :=
  record_seq_usage_sum 3600 [(3600, 1), (1800, 2)] (by norm_num [ONE_HOUR])

/-- The successor state of `can_make_request` is the lazily-evicted ledger. -/
lemma can_make_request_state (now : ℚ) (d : LedgerData) (m : String) (i o : ℤ) :
    (can_make_request now d m i o).2 = clean_old_usage now d := by
  unfold can_make_request
  split <;> rfl

/-- `can_make_request` gives the same full result on the cleaned ledger. -/
lemma can_make_request_clean (now : ℚ) (d : LedgerData) (m : String) (i o : ℤ) :
    can_make_request now (clean_old_usage now d) m i o = can_make_request now d m i o := by
  unfold can_make_request
  rw [usage_after_clean]
  rfl

/-- `get_usage_stats` gives the same snapshot on the cleaned ledger. -/
lemma get_usage_stats_clean (now : ℚ) (d : LedgerData) :
    (get_usage_stats now (clean_old_usage now d)).1 = (get_usage_stats now d).1 := by
  unfold get_usage_stats
  rw [usage_after_clean]
  rfl

/-- C4: `can_make_request` has no observable side effects at a fixed time:
repeating the call on the resulting state returns the identical
`(allowed, estimated_cost, reason)` triple and the identical state, any
later call with any arguments answers the same as on the original state,
and the stats snapshot is unchanged by the check. -/
theorem can_make_request_no_side_effects (now : ℚ) (d : LedgerData)
    (m m2 : String) (i o i2 o2 : ℤ) :
    (can_make_request now ((can_make_request now d m i o).2) m i o =
      ((can_make_request now d m i o).1, (can_make_request now d m i o).2)) ∧
    ((can_make_request now ((can_make_request now d m i o).2) m2 i2 o2).1 =
      (can_make_request now d m2 i2 o2).1) ∧
    ((get_usage_stats now ((can_make_request now d m i o).2)).1 =
      (get_usage_stats now d).1) := by
  refine ⟨?_, ?_, ?_⟩
  · rw [can_make_request_state, can_make_request_clean,
      ← can_make_request_state now d m i o]
  · rw [can_make_request_state, can_make_request_clean]
  · rw [can_make_request_state, get_usage_stats_clean]

/-- Every entry of the price table has non-negative unit prices. -/
lemma pricing_nonneg (k : String) (p : ℚ × ℚ) (h : OPENAI_PRICING.lookup k = some p) :
    0 ≤ p.1 ∧ 0 ≤ p.2 := by
  unfold OPENAI_PRICING at h
  simp only [List.lookup] at h
  split at h
  · obtain rfl : ((3:ℚ)/100/1000, (6:ℚ)/100/1000) = p := Option.some.inj h
    norm_num
  · split at h
    · obtain rfl : ((1:ℚ)/100/1000, (3:ℚ)/100/1000) = p := Option.some.inj h
      norm_num
    · split at h
      · obtain rfl : ((5:ℚ)/10000/1000, (15:ℚ)/10000/1000) = p := Option.some.inj h
        norm_num
      · simp at h

/-- C5: `estimate_request_cost` prices a known model by its own table entry,
silently falls back to the default model when the model is absent, and
returns a non-negative cost for non-negative token counts, with no error. -/
theorem estimate_request_cost_spec (model : String) (i o : ℤ)
    (hi : 0 ≤ i) (ho : 0 ≤ o) :
    (∀ pin pout, OPENAI_PRICING.lookup model = some (pin, pout) →
      estimate_request_cost model i o = (i : ℚ) * pin + (o : ℚ) * pout) ∧
    (OPENAI_PRICING.lookup model = none →
      estimate_request_cost model i o = estimate_request_cost DEFAULT_MODEL i o) ∧
    0 ≤ estimate_request_cost model i o := by
  have hdef : (OPENAI_PRICING.lookup DEFAULT_MODEL).isSome = true := by decide
  refine ⟨?_, ?_, ?_⟩
  · intro pin pout h
    unfold estimate_request_cost effective_model
    simp [h]
  · intro h
    unfold estimate_request_cost effective_model
    simp [h, hdef]
  · unfold estimate_request_cost
    split
    case h_1 p hp =>
      have := pricing_nonneg _ p hp
      have hi' : (0:ℚ) ≤ (i : ℚ) := by exact_mod_cast hi
      have ho' : (0:ℚ) ≤ (o : ℚ) := by exact_mod_cast ho
      exact add_nonneg (mul_nonneg hi' this.1) (mul_nonneg ho' this.2)
    case h_2 => exact le_refl 0

/-- Witness for C5: an unknown model falls back to the default model and the
estimate is non-negative. -/
theorem estimate_request_cost_spec_witness :
    (estimate_request_cost "unknown-model-xyz" 1000 500 =
      estimate_request_cost DEFAULT_MODEL 1000 500) ∧
    0 ≤ estimate_request_cost "unknown-model-xyz" 1000 500 :=
  ⟨(estimate_request_cost_spec "unknown-model-xyz" 1000 500 (by norm_num) (by norm_num)).2.1
      (by decide),
   (estimate_request_cost_spec "unknown-model-xyz" 1000 500 (by norm_num) (by norm_num)).2.2⟩

/-- C7: the stats snapshot reports the raw percentage
`window_usage / ceiling * 100`, unclamped; recording `0.05`, `0.08`, `0.12`
inside the window yields a percentage of exactly `2.5`. -/
theorem usage_percentage_spec (now : ℚ) (d : LedgerData) :
    ((get_usage_stats now d).1.usage_percentage =
      (get_current_hourly_usage now d).1 / HOURLY_LIMIT * 100) ∧
    ((get_usage_stats 3600
        (record_seq (initialData 0)
          [((3600:ℚ), (5:ℚ)/100), ((3600:ℚ), (8:ℚ)/100), ((3600:ℚ), (12:ℚ)/100)])).1.usage_percentage
      = 5/2) := by
  constructor
  · rfl
  · norm_num [get_usage_stats, get_current_hourly_usage, clean_old_usage, record_seq,
      record_usage, initialData, ONE_HOUR, HOURLY_LIMIT]

/-- `fmt2` prints the ceiling as `10.00`. -/
lemma fmt2_limit : fmt2 HOURLY_LIMIT = "10.00" := by
  unfold fmt2 HOURLY_LIMIT
  rw [show ((10:ℚ) * 100) = 1000 by norm_num, round_ofNat]
  rfl

/-- `fmt2` prints `9.99` for `999/100`. -/
lemma fmt2_999 : fmt2 (999/100) = "9.99" := by
  unfold fmt2
  rw [show ((999:ℚ)/100 * 100) = 999 by norm_num, round_ofNat]
  rfl

/-- `fmt2` prints `0.03` for the default estimate `1/40 = 0.025` (Python's
`f"{0.025:.2f}"` also prints `0.03` on the actual float). -/
lemma fmt2_cost : fmt2 (1/40) = "0.03" := by
  unfold fmt2
  rw [show ((1:ℚ)/40 * 100) = 5/2 by norm_num, round_eq,
    show ((5:ℚ)/2 + 1/2) = 3 by norm_num, show ⌊(3:ℚ)⌋ = 3 by norm_num]
  rfl

/-- `fmt2` prints `0.01` for one cent. -/
lemma fmt2_cent : fmt2 (1/100) = "0.01" := by
  unfold fmt2
  rw [show ((1:ℚ)/100 * 100) = 1 by norm_num, round_one]
  rfl

/-- The default model's estimate for 1000 input and 500 output tokens is
exactly `$0.025 = 1/40`. -/
lemma estimate_default : estimate_request_cost DEFAULT_MODEL 1000 500 = 1/40 := by
  have hlk : OPENAI_PRICING.lookup (effective_model DEFAULT_MODEL) =
      some ((1:ℚ)/100/1000, (3:ℚ)/100/1000) := rfl
  unfold estimate_request_cost
  rw [hlk]
  norm_num

/-- Recording a single cost at time 0 on a fresh ledger and reading at time 0
returns exactly that cost. -/
lemma usage_single (c : ℚ) :
    (get_current_hourly_usage 0 (record_usage 0 (initialData 0) c)).1 = c := by
  norm_num [get_current_hourly_usage, clean_old_usage, record_usage, initialData, ONE_HOUR]

/-- C6: whenever `can_make_request` rejects, the reason string carries the
formatted ceiling, current usage, estimated cost, and remaining headroom
(ceiling minus usage) in that order; when it allows, the reason is the
generic confirmation.  Concretely, after `record_usage(9.99)` the default
request is rejected (9.99 + 0.025 > 10.00) and the reason ends with the
remaining-budget figure `0.01`. -/
theorem rejection_reason_spec (now : ℚ) (d : LedgerData) (m : String) (i o : ℤ) :
    ((can_make_request now d m i o).1.1 = false →
      ∃ s1 s2 s3 s4, (can_make_request now d m i o).1.2.2 =
        s1 ++ fmt2 HOURLY_LIMIT ++ s2 ++ fmt2 (get_current_hourly_usage now d).1 ++
          s3 ++ fmt2 (estimate_request_cost m i o) ++ s4 ++
          fmt2 (HOURLY_LIMIT - (get_current_hourly_usage now d).1)) ∧
    ((can_make_request now d m i o).1.1 = true →
      (can_make_request now d m i o).1.2.2 = "Request within limits") ∧
    ((can_make_request 0 (record_usage 0 (initialData 0) (999/100)) DEFAULT_MODEL 1000 500).1.1
      = false) ∧
    (∃ s, (can_make_request 0 (record_usage 0 (initialData 0) (999/100)) DEFAULT_MODEL 1000 500).1.2.2
      = s ++ "0.01") := by
  have hu : (get_current_hourly_usage 0 (record_usage 0 (initialData 0) (999/100))).1 = 999/100 :=
    usage_single (999/100)
  have hrej : (can_make_request 0 (record_usage 0 (initialData 0) (999/100))
      DEFAULT_MODEL 1000 500).1 =
      (false, 1/40,
        "Would exceed hourly limit of $" ++ fmt2 HOURLY_LIMIT ++ ". Current usage: $" ++
          fmt2 (999/100) ++ ", Estimated cost: $" ++ fmt2 (1/40) ++
          ", Remaining budget: $" ++ fmt2 (1/100)) := by
    unfold can_make_request
    rw [hu, estimate_default, if_pos (by norm_num [HOURLY_LIMIT]),
      show HOURLY_LIMIT - (999:ℚ)/100 = 1/100 by norm_num [HOURLY_LIMIT]]
  refine ⟨?_, ?_, ?_, ?_⟩
  · intro h
    unfold can_make_request at h ⊢
    split at h
    case isTrue hc =>
      rw [if_pos hc]
      exact ⟨"Would exceed hourly limit of $", ". Current usage: $",
        ", Estimated cost: $", ", Remaining budget: $", rfl⟩
    case isFalse hc => simp at h
  · intro h
    unfold can_make_request at h ⊢
    split at h
    case isTrue hc => simp at h
    case isFalse hc => rw [if_neg hc]
  · rw [hrej]
  · refine ⟨"Would exceed hourly limit of $10.00. Current usage: $9.99, Estimated cost: $0.03, Remaining budget: $", ?_⟩
    rw [show (can_make_request 0 (record_usage 0 (initialData 0) (999/100))
        DEFAULT_MODEL 1000 500).1.2.2 =
        "Would exceed hourly limit of $" ++ fmt2 HOURLY_LIMIT ++ ". Current usage: $" ++
          fmt2 (999/100) ++ ", Estimated cost: $" ++ fmt2 (1/40) ++
          ", Remaining budget: $" ++ fmt2 (1/100) by rw [hrej]]
    rw [fmt2_limit, fmt2_999, fmt2_cost, fmt2_cent]
    rfl

/-- Witness for C6 at the scenario input: the rejection happens and the
reason decomposes around the four formatted figures. -/
theorem rejection_reason_spec_witness :
    ((can_make_request 0 (record_usage 0 (initialData 0) (999/100)) DEFAULT_MODEL 1000 500).1.1
      = false) ∧
    (∃ s1 s2 s3 s4,
      (can_make_request 0 (record_usage 0 (initialData 0) (999/100)) DEFAULT_MODEL 1000 500).1.2.2 =
        s1 ++ fmt2 HOURLY_LIMIT ++ s2 ++
          fmt2 (get_current_hourly_usage 0 (record_usage 0 (initialData 0) (999/100))).1 ++
          s3 ++ fmt2 (estimate_request_cost DEFAULT_MODEL 1000 500) ++ s4 ++
          fmt2 (HOURLY_LIMIT -
            (get_current_hourly_usage 0 (record_usage 0 (initialData 0) (999/100))).1)) :=
  ⟨(rejection_reason_spec 0 (record_usage 0 (initialData 0) (999/100))
      DEFAULT_MODEL 1000 500).2.2.1,
   (rejection_reason_spec 0 (record_usage 0 (initialData 0) (999/100))
      DEFAULT_MODEL 1000 500).1
    (by
      unfold can_make_request
      rw [usage_single, estimate_default, if_pos (by norm_num [HOURLY_LIMIT])])⟩

/-- C9: the stats snapshot clamps the remaining budget at zero —
`remaining_budget = max 0 (ceiling - usage)`, never negative, and zero when
the window usage exceeds the ceiling — while the rejection reason of
`can_make_request` ends with the raw (possibly negative) difference. -/
theorem remaining_budget_spec (now : ℚ) (d : LedgerData) (m : String) (i o : ℤ) :
    ((get_usage_stats now d).1.remaining_budget =
      max 0 (HOURLY_LIMIT - (get_current_hourly_usage now d).1)) ∧
    (0 ≤ (get_usage_stats now d).1.remaining_budget) ∧
    (HOURLY_LIMIT < (get_current_hourly_usage now d).1 →
      (get_usage_stats now d).1.remaining_budget = 0) ∧
    ((can_make_request now d m i o).1.1 = false →
      ∃ s, (can_make_request now d m i o).1.2.2 =
        s ++ fmt2 (HOURLY_LIMIT - (get_current_hourly_usage now d).1)) := by
  refine ⟨rfl, le_max_left 0 _, ?_, ?_⟩
  · intro h
    show max 0 (HOURLY_LIMIT - (get_current_hourly_usage now d).1) = 0
    apply max_eq_left
    linarith
  · intro h
    unfold can_make_request at h ⊢
    split at h
    case isTrue hc =>
      rw [if_pos hc]
      exact ⟨"Would exceed hourly limit of $" ++ fmt2 HOURLY_LIMIT ++ ". Current usage: $" ++
        fmt2 (get_current_hourly_usage now d).1 ++ ", Estimated cost: $" ++
        fmt2 (estimate_request_cost m i o) ++ ", Remaining budget: $", rfl⟩
    case isFalse hc => simp at h

/-- Witness for C9 at an over-budget ledger: after recording `$10.50`, the
stats report zero remaining while the rejection reason carries the raw
difference. -/
theorem remaining_budget_spec_witness :
    ((get_usage_stats 0 (record_usage 0 (initialData 0) (21/2))).1.remaining_budget = 0) ∧
    (∃ s, (can_make_request 0 (record_usage 0 (initialData 0) (21/2))
        DEFAULT_MODEL 1000 500).1.2.2 =
      s ++ fmt2 (HOURLY_LIMIT -
        (get_current_hourly_usage 0 (record_usage 0 (initialData 0) (21/2))).1)) :=
  ⟨(remaining_budget_spec 0 (record_usage 0 (initialData 0) (21/2))
      DEFAULT_MODEL 1000 500).2.2.1
    (by rw [usage_single]; norm_num [HOURLY_LIMIT]),
   (remaining_budget_spec 0 (record_usage 0 (initialData 0) (21/2))
      DEFAULT_MODEL 1000 500).2.2.2
    (by
      unfold can_make_request
      rw [usage_single, estimate_default, if_pos (by norm_num [HOURLY_LIMIT])])⟩

/-- C10: `reset_daily_usage` zeroes the daily counter and stamps
`last_reset` with the current time, leaves the hourly record list untouched,
and consequently changes neither the window usage nor the outcome of
`can_make_request` at a fixed time. -/
theorem reset_daily_usage_frame (now : ℚ) (d : LedgerData) (m : String) (i o : ℤ) :
    ((reset_daily_usage now d).total_spent_today = 0) ∧
    ((reset_daily_usage now d).last_reset = now) ∧
    ((reset_daily_usage now d).hourly_usage = d.hourly_usage) ∧
    ((get_current_hourly_usage now (reset_daily_usage now d)).1 =
      (get_current_hourly_usage now d).1) ∧
    ((can_make_request now (reset_daily_usage now d) m i o).1 =
      (can_make_request now d m i o).1) := by
  refine ⟨rfl, rfl, rfl, rfl, ?_⟩
  unfold can_make_request
  have husage : (get_current_hourly_usage now (reset_daily_usage now d)).1 =
      (get_current_hourly_usage now d).1 := rfl
  rw [husage]
  by_cases hc : HOURLY_LIMIT < (get_current_hourly_usage now d).1 + estimate_request_cost m i o
  · rw [if_pos hc, if_pos hc]
  · rw [if_neg hc, if_neg hc]

end RateLimiter
